import Mathlib

/-!
Verification of the transport abstraction and state-synchronization contract
of the babble repository, centred on the reference (mock) transport
implementation (`MockTransport` in `src/transports/mock-transport.ts`) and the
store bridge (`src/stores/app-store.ts`).

The embedding is a pure shallow embedding of the TypeScript code:

* The TypeScript object types (`ConnState`, `Channel`, `User`, `MeState`,
  `TransportState`, `ConnectParams` from `src/transports/types.ts`) become
  Lean structures, with optional fields as `Option`.
* The mutable `MockTransport` instance becomes an explicit state record
  threaded through the operations; every method becomes a function
  `MockTransport → MockTransport`.
* Listener callbacks are defunctionalized: each listener is a numeric id, an
  environment `Env : Nat → Behavior` gives the side effect of the callback on the
  listener set (`passive` does nothing; `unsubOn t` invokes the
  unsubscribe capability of listener `t`, as a callback in JS may do re-entrantly).  Every
  invocation of a listener is recorded in an observation log
  `log : List (Nat × TransportState)` — the pair (listener id, the snapshot
  it was called with).
* `this.listeners` is a JS `Set`, which is insertion-ordered and duplicate
  free; it is embedded as a `List Nat` with guarded insertion.  Crucially,
  `Set.prototype.forEach` iterates the *live* set: an element deleted during
  iteration before being visited is not visited.  `forEachDeliver` embeds
  exactly that semantics for the (deletion-only) behaviors of `Env`.
* `setTimeout`/`clearTimeout` for the single connect timer become a
  generation token: `connectTimer : Option Nat` holds the id of the scheduled,
  not-yet-fired, not-yet-cancelled timer, and `nextTimer` is a fresh-id
  counter.  Firing is an explicit event `fireConnectTimer t`; it runs the
  scheduled callback exactly when timer `t` is still scheduled (a cleared or
  replaced timer never fires — `clearTimeout` semantics — and a timer fires
  at most once).
* `snapshot()` performs a defensive deep copy; on pure values a deep copy is
  the identity, so `snapshot` is the identity on the state component.
-/

namespace Babble

/-- `ConnState` from `src/transports/types.ts`:
`"disconnected" | "connecting" | "connected" | "error"`. -/
inductive ConnState
  | disconnected
  | connecting
  | connected
  | error
  deriving DecidableEq, Repr

/-- `Channel` from `src/transports/types.ts`. -/
structure Channel where
  id : Nat
  name : String
  parentId : Option Nat := none
  deriving DecidableEq, Repr

/-- `User` from `src/transports/types.ts`; the optional transient flags are
`Option Bool` (absent = `undefined`). -/
structure User where
  id : Nat
  name : String
  channelId : Nat
  talking : Option Bool := none
  muted : Option Bool := none
  deafened : Option Bool := none
  deriving DecidableEq, Repr

/-- `MeState` from `src/transports/types.ts`. -/
structure MeState where
  muted : Bool
  deafened : Bool
  deriving DecidableEq, Repr

/-- `TransportState` from `src/transports/types.ts`: the aggregate snapshot. -/
structure TransportState where
  connState : ConnState
  currentServer : Option String
  currentChannelId : Option Nat
  me : MeState
  channels : List Channel
  users : List User
  deriving DecidableEq, Repr

/-- `ConnectParams` from `src/transports/types.ts`. -/
structure ConnectParams where
  server : String
  username : Option String := none
  deriving DecidableEq, Repr

/-- `defaultChannels` from `src/transports/mock-transport.ts`. -/
def defaultChannels : List Channel :=
  [{ id := 1, name := "Lobby" },
   { id := 2, name := "Gaming" },
   { id := 3, name := "AFK" }]

/-- `defaultUsers` from `src/transports/mock-transport.ts`. -/
def defaultUsers : List User :=
  [{ id := 1, name := "You", channelId := 1 },
   { id := 2, name := "Alex", channelId := 1, talking := some true },
   { id := 3, name := "Sam", channelId := 2 }]

/-- Defunctionalized listener callback behavior: what the callback of a listener
does to the listener set when invoked.  `passive` is a pure observer (e.g. the
store bridge callback `(state) => set(state)`); `unsubOn t` additionally invokes the
unsubscribe capability of listener `t` (re-entrant mutation of the set during
delivery, possible in JS). -/
inductive Behavior
  | passive
  | unsubOn (target : Nat)
  deriving DecidableEq, Repr

/-- Assignment of callback behaviors to listener ids. -/
abbrev Env := Nat → Behavior

/-- The environment in which every listener is a pure observer. -/
def passiveEnv : Env := fun _ => Behavior.passive

/-- Effect of invoking the callback of listener `l` on the listener set:
`unsubOn t` performs `this.listeners.delete(t)`. -/
def runBehavior (env : Env) (l : Nat) (live : List Nat) : List Nat :=
  match env l with
  | Behavior.passive => live
  | Behavior.unsubOn t => live.filter (fun x => x ≠ t)

/-- Explicit state of a `MockTransport` instance
(`src/transports/mock-transport.ts`): the private `state`, the listener `Set`
(insertion-ordered id list), the connect-timer bookkeeping, and the
observation log of every listener invocation (id, snapshot passed). -/
structure MockTransport where
  state : TransportState
  listeners : List Nat
  connectTimer : Option Nat
  nextTimer : Nat
  log : List (Nat × TransportState)
  deriving DecidableEq, Repr

/-- The initial value of the private `state` field of `MockTransport`. -/
def initialState : TransportState :=
  { connState := ConnState.disconnected
    currentServer := none
    currentChannelId := some 1
    me := { muted := false, deafened := false }
    channels := defaultChannels
    users := defaultUsers }

/-- `createMockTransport()`: a fresh transport before any command. -/
def createMockTransport : MockTransport :=
  { state := initialState
    listeners := []
    connectTimer := none
    nextTimer := 0
    log := [] }

/-- `snapshot()`: a defensive deep copy of the current state.  On pure values
the copy is the identity. -/
def snapshot (m : MockTransport) : TransportState := m.state

/-- `getState()`: returns `this.snapshot()`; no side effects. -/
def getState (m : MockTransport) : TransportState := snapshot m

/-- `this.listeners.forEach((listener) => listener(snapshot))` with JS `Set`
live-iteration semantics: iterate the ids in insertion order (`todo`), invoke
a listener only if it is still in the live set at its turn, let its callback
mutate the live set, and record the invocation in the log. -/
def forEachDeliver (env : Env) (snap : TransportState) :
    List Nat → List Nat → List (Nat × TransportState) →
    List Nat × List (Nat × TransportState)
  | [], live, log => (live, log)
  | l :: rest, live, log =>
    if l ∈ live then
      forEachDeliver env snap rest (runBehavior env l live) (log ++ [(l, snap)])
    else
      forEachDeliver env snap rest live log

/-- `private update(partial)`: merge the partial into `state` (here the caller
supplies the fully merged new state `s2`), take one snapshot, and deliver it
to the listeners via `forEach`. -/
def update (env : Env) (m : MockTransport) (s2 : TransportState) : MockTransport :=
  let r := forEachDeliver env s2 m.listeners m.listeners m.log
  { m with state := s2, listeners := r.1, log := r.2 }

/-- `subscribe(listener)`: add to the `Set` (no-op if present), then invoke the
listener once, immediately, with `this.snapshot()`; the side effect of its callback
on the set runs during that invocation. -/
def subscribe (env : Env) (l : Nat) (m : MockTransport) : MockTransport :=
  let added := if l ∈ m.listeners then m.listeners else m.listeners ++ [l]
  { m with listeners := runBehavior env l added, log := m.log ++ [(l, snapshot m)] }

/-- The unsubscribe capability returned by `subscribe`:
`() => { this.listeners.delete(listener); }`. -/
def unsubscribeListener (l : Nat) (m : MockTransport) : MockTransport :=
  { m with listeners := m.listeners.filter (fun x => x ≠ l) }

/-- `connect(params)`: no-op when already connected; otherwise emit
`connecting` with the requested server, cancel any pending connect timer and
schedule a fresh one whose callback emits `connected`. -/
def connect (env : Env) (p : ConnectParams) (m : MockTransport) : MockTransport :=
  if m.state.connState = ConnState.connected then m
  else
    let m1 := update env m
      { m.state with connState := ConnState.connecting, currentServer := some p.server }
    { m1 with connectTimer := some m1.nextTimer, nextTimer := m1.nextTimer + 1 }

/-- `disconnect()`: cancel any pending connect timer, then emit
`disconnected`. -/
def disconnect (env : Env) (m : MockTransport) : MockTransport :=
  let m1 := { m with connectTimer := none }
  update env m1 { m1.state with connState := ConnState.disconnected }

/-- The firing of timer `t`: runs the scheduled `connect` callback
(`this.update({connState: "connected"})`) exactly when timer `t` is still
scheduled (not cancelled by `clearTimeout`, not replaced, not already
fired). -/
def fireConnectTimer (env : Env) (t : Nat) (m : MockTransport) : MockTransport :=
  if m.connectTimer = some t then
    update env { m with connectTimer := none }
      { m.state with connState := ConnState.connected }
  else m

/-- `joinChannel(channelId)`: move the self user (id 1) to the channel and set
the aggregate current channel id, in one emission; no existence check. -/
def joinChannel (env : Env) (c : Nat) (m : MockTransport) : MockTransport :=
  let users := m.state.users.map (fun u =>
    if u.id = 1 then { u with channelId := c } else u)
  update env m { m.state with currentChannelId := some c, users := users }

/-- `private updateMe(partial)`: merge the partial into `me`
(`pm`/`pd` are the optional `muted`/`deafened` entries of the partial), mirror
the new `me` flags into the self user (id 1), and emit once. -/
def updateMe (env : Env) (pm pd : Option Bool) (m : MockTransport) : MockTransport :=
  let me : MeState :=
    { muted := pm.getD m.state.me.muted, deafened := pd.getD m.state.me.deafened }
  let users := m.state.users.map (fun u =>
    if u.id = 1 then { u with muted := some me.muted, deafened := some me.deafened } else u)
  update env m { m.state with me := me, users := users }

/-- `setMute(muted)`: `this.updateMe({ muted })`. -/
def setMute (env : Env) (b : Bool) (m : MockTransport) : MockTransport :=
  updateMe env (some b) none m

/-- `setDeafen(deafened)`: `this.updateMe({ deafened })`. -/
def setDeafen (env : Env) (b : Bool) (m : MockTransport) : MockTransport :=
  updateMe env none (some b) m

/-- Commands and events a client (or the timer queue) can apply to one
transport instance, for trace-based properties. -/
inductive Cmd
  | connect (s : String)
  | disconnect
  | join (c : Nat)
  | setMute (b : Bool)
  | setDeafen (b : Bool)
  | fire (t : Nat)
  | subscribe (l : Nat)
  | unsub (l : Nat)
  deriving DecidableEq, Repr

/-- One step of a trace. -/
def runCmd (env : Env) (m : MockTransport) : Cmd → MockTransport
  | Cmd.connect s => connect env { server := s } m
  | Cmd.disconnect => disconnect env m
  | Cmd.join c => joinChannel env c m
  | Cmd.setMute b => setMute env b m
  | Cmd.setDeafen b => setDeafen env b m
  | Cmd.fire t => fireConnectTimer env t m
  | Cmd.subscribe l => subscribe env l m
  | Cmd.unsub l => unsubscribeListener l m

/-- Run a whole trace of commands. -/
def runTrace (env : Env) (cs : List Cmd) (m : MockTransport) : MockTransport :=
  cs.foldl (runCmd env) m

/-- Store bridge (`src/stores/app-store.ts`): the visible state of the store is
seeded from `transport.getState()` and replaced wholesale by every emission of
its (passive) subscription, so it always equals the current transport state.
`toggleMute: () => transport.setMute(!get().me.muted)` therefore reads the
current transport `me.muted` and issues `setMute` with its negation. -/
def toggleMute (m : MockTransport) : MockTransport :=
  setMute passiveEnv (!(getState m).me.muted) m

/-- `toggleDeafen: () => transport.setDeafen(!get().me.deafened)`. -/
def toggleDeafen (m : MockTransport) : MockTransport :=
  setDeafen passiveEnv (!(getState m).me.deafened) m

/-- Number of invocations listener `l` has received, per the observation
log. -/
def calls (l : Nat) (m : MockTransport) : Nat :=
  (m.log.filter (fun e => e.1 = l)).length

/-- The self-user mirror invariant on one snapshot: every user entry with
id 1 has its `muted`/`deafened` flags (absent read as `false`) equal to
`me.muted`/`me.deafened`. -/
def mirrorsSelf (s : TransportState) : Prop :=
  ∀ u ∈ s.users, u.id = 1 →
    (u.muted.getD false = s.me.muted ∧ u.deafened.getD false = s.me.deafened)

instance (s : TransportState) : Decidable (mirrorsSelf s) := by
  unfold mirrorsSelf; infer_instance

/-! ### Helper lemmas about delivery -/

/-- With passive listeners, `forEach` delivery visits every id of the
iteration list (all of which are in the live set), in order, and leaves the
set unchanged. -/
theorem forEachDeliver_passive (snap : TransportState) :
    ∀ (todo live : List Nat) (log : List (Nat × TransportState)),
      (∀ x ∈ todo, x ∈ live) →
      forEachDeliver passiveEnv snap todo live log =
        (live, log ++ todo.map (fun l => (l, snap)))
  | [], live, log, _ => by simp [forEachDeliver]
  | l :: rest, live, log, h => by
    have hl : l ∈ live := h l (List.mem_cons_self l rest)
    have hrest : ∀ x ∈ rest, x ∈ live := fun x hx => h x (List.mem_cons_of_mem l hx)
    simp only [forEachDeliver, if_pos hl, runBehavior, passiveEnv]
    rw [forEachDeliver_passive snap rest live (log ++ [(l, snap)]) hrest]
    simp

/-- Closed form of `update` with passive listeners: the state is replaced and
every registered listener receives exactly one invocation with the new
snapshot, in registration order. -/
theorem update_passive (m : MockTransport) (s2 : TransportState) :
    update passiveEnv m s2 =
      { m with state := s2,
               log := m.log ++ m.listeners.map (fun l => (l, s2)) } := by
  unfold update
  rw [forEachDeliver_passive s2 m.listeners m.listeners m.log (fun x hx => hx)]

/-! ### Claim theorems -/

/-- C10: immediately after `createMockTransport()` and before any command,
`getState()` returns `connState = disconnected`, no current server,
`me = {muted := false, deafened := false}`, exactly the three seeded channels
(ids 1, 2, 3) and the three seeded users with the self user (id 1) in
channel 1 — and `currentChannelId` is already `some 1` even though the
transport is disconnected. -/
theorem C10_initial_state :
    getState createMockTransport = initialState
    ∧ initialState.connState = ConnState.disconnected
    ∧ initialState.currentServer = none
    ∧ initialState.currentChannelId = some 1
    ∧ initialState.me = { muted := false, deafened := false }
    ∧ initialState.channels = defaultChannels
    ∧ initialState.users = defaultUsers
    ∧ defaultChannels.map Channel.id = [1, 2, 3]
    ∧ defaultUsers.map (fun u => (u.id, u.channelId)) = [(1, 1), (2, 1), (3, 2)] := by
  refine ⟨rfl, rfl, rfl, rfl, rfl, rfl, rfl, rfl, rfl⟩

/-- A transport that has completed a successful connect: its `connState` is
`connected`. -/
def connectedMock : MockTransport :=
  fireConnectTimer passiveEnv 0 (connect passiveEnv { server := "s" } createMockTransport)

/-- C3: calling `connect` while already connected is a no-op — it resolves,
leaves every field of the transport unchanged (including `currentServer`) and
emits nothing to any listener (the whole transport value, log included, is
unchanged). -/
theorem C3_connect_idempotent_when_connected (env : Env) (p : ConnectParams)
    (m : MockTransport) (h : m.state.connState = ConnState.connected) :
    connect env p m = m := by
  simp [connect, h]

/-- Witness for C3 at a concrete connected transport. -/
theorem C3_connect_idempotent_when_connected_witness :
    connectedMock.state.connState = ConnState.connected
    ∧ connect passiveEnv { server := "x" } connectedMock = connectedMock :=
  ⟨by decide, C3_connect_idempotent_when_connected passiveEnv { server := "x" }
      connectedMock (by decide)⟩

/-- C9: the store command `toggleMute` reads the visible `me.muted` (the
visible store state always equals the current transport state) and issues `setMute` with
its negation, so two consecutive completed `toggleMute` calls return
`me.muted` to its original value. -/
theorem C9_toggleMute_involution (m : MockTransport) :
    (toggleMute m).state.me.muted = !m.state.me.muted
    ∧ (toggleMute (toggleMute m)).state.me.muted = m.state.me.muted := by
  constructor
  · simp [toggleMute, setMute, updateMe, update, getState, snapshot]
  · simp [toggleMute, setMute, updateMe, update, getState, snapshot]

/-- Witness for C9 at the freshly created transport. -/
theorem C9_toggleMute_involution_witness :
    (toggleMute (toggleMute createMockTransport)).state.me.muted
      = createMockTransport.state.me.muted :=
  (C9_toggleMute_involution createMockTransport).2

/-- C1: supersession of pending connects.  With a connect attempt pending
(timer `t` scheduled, so `t` is older than the fresh-id counter) and the
transport not yet connected: (a) `disconnect()` leaves the state
`disconnected`; (b) after `disconnect()` the completion of the superseded attempt
is inert — firing any timer changes nothing, so the state never becomes
`connected` from it; (c) a second `connect()` issued while `connecting`
cancels the pending timer `t` (firing `t` afterwards changes nothing) and
(d) only the own timer of the replacement attempt completes the connect. -/
theorem C1_supersession (m : MockTransport) (t : Nat) (p : ConnectParams)
    (hpend : m.connectTimer = some t)
    (hfresh : t < m.nextTimer)
    (hnc : m.state.connState ≠ ConnState.connected) :
    (disconnect passiveEnv m).state.connState = ConnState.disconnected
    ∧ (∀ t2, fireConnectTimer passiveEnv t2 (disconnect passiveEnv m)
        = disconnect passiveEnv m)
    ∧ fireConnectTimer passiveEnv t (connect passiveEnv p m)
        = connect passiveEnv p m
    ∧ (fireConnectTimer passiveEnv m.nextTimer
        (connect passiveEnv p m)).state.connState = ConnState.connected := by
  have hdt : (disconnect passiveEnv m).connectTimer = none := rfl
  have hct : (connect passiveEnv p m).connectTimer = some m.nextTimer := by
    simp [connect, hnc, update]
  refine ⟨rfl, ?_, ?_, ?_⟩
  · intro t2
    simp [fireConnectTimer, hdt]
  · have hne : t ≠ m.nextTimer := Nat.ne_of_lt hfresh
    have hne2 : m.nextTimer ≠ t := fun hh => hne hh.symm
    simp [fireConnectTimer, hct, hne2]
  · simp [fireConnectTimer, hct, update]

/-- Witness for C1: a fresh transport with one pending connect (timer 0). -/
theorem C1_supersession_witness :
    (connect passiveEnv { server := "a" } createMockTransport).connectTimer = some 0
    ∧ 0 < (connect passiveEnv { server := "a" } createMockTransport).nextTimer
    ∧ (fireConnectTimer passiveEnv
        (connect passiveEnv { server := "a" } createMockTransport).nextTimer
        (connect passiveEnv { server := "b" }
          (connect passiveEnv { server := "a" } createMockTransport))).state.connState
      = ConnState.connected :=
  ⟨by decide, by decide,
    (C1_supersession (connect passiveEnv { server := "a" } createMockTransport) 0
      { server := "b" } (by decide) (by decide) (by decide)).2.2.2⟩

/-- C2: successful connect sequence.  From any not-connected transport,
`connect({server := s})` synchronously moves the observable state to
`connecting` with `currentServer = s`; when its timer then fires (no
intervening command), the state becomes `connected` with `currentServer = s`,
and each registered listener receives exactly one snapshot — the `connected`
one — in that emission. -/
theorem C2_connect_success (m m1 m2 : MockTransport) (s : String)
    (h : m.state.connState ≠ ConnState.connected)
    (e1 : m1 = connect passiveEnv { server := s } m)
    (e2 : m2 = fireConnectTimer passiveEnv m.nextTimer m1) :
    m1.state.connState = ConnState.connecting
    ∧ m1.state.currentServer = some s
    ∧ getState m1 = m1.state
    ∧ m2.state.connState = ConnState.connected
    ∧ m2.state.currentServer = some s
    ∧ m2.log = m1.log ++ m1.listeners.map (fun l => (l, m2.state)) := by
  subst e1 e2
  have hct : (connect passiveEnv { server := s } m).connectTimer = some m.nextTimer := by
    simp [connect, h, update]
  have hst : (connect passiveEnv { server := s } m).state =
      { m.state with connState := ConnState.connecting, currentServer := some s } := by
    simp [connect, h, update]
  refine ⟨by rw [hst], by rw [hst], rfl, ?_, ?_, ?_⟩
  · simp [fireConnectTimer, hct, update]
  · simp [fireConnectTimer, hct, update, hst]
  · simp [fireConnectTimer, hct, update_passive]

/-- Witness for C2 on a fresh transport with one subscribed listener. -/
theorem C2_connect_success_witness :
    (connect passiveEnv { server := "srv" }
        (subscribe passiveEnv 9 createMockTransport)).state.connState
      = ConnState.connecting
    ∧ (fireConnectTimer passiveEnv 0
        (connect passiveEnv { server := "srv" }
          (subscribe passiveEnv 9 createMockTransport))).state.connState
      = ConnState.connected :=
  have h := C2_connect_success (subscribe passiveEnv 9 createMockTransport)
    (connect passiveEnv { server := "srv" } (subscribe passiveEnv 9 createMockTransport))
    (fireConnectTimer passiveEnv 0
      (connect passiveEnv { server := "srv" } (subscribe passiveEnv 9 createMockTransport)))
    "srv" (by decide) rfl rfl
  ⟨h.1, h.2.2.2.1⟩

/-- C4: the mock command `joinChannel(c)` succeeds for every channel id `c`
(existing or not — no existence check, the function is total) and updates
atomically: in the single emitted snapshot (delivered exactly once to each
registered listener) both the aggregate `currentChannelId` and every user
entry with id 1 carry the new channel `c`; no other snapshot is emitted, so
no listener can observe only one of the two updated. -/
theorem C4_joinChannel_total_atomic (m m2 : MockTransport) (c : Nat)
    (e : m2 = joinChannel passiveEnv c m) :
    m2.state.currentChannelId = some c
    ∧ (∀ u ∈ m2.state.users, u.id = 1 → u.channelId = c)
    ∧ m2.log = m.log ++ m.listeners.map (fun l => (l, m2.state)) := by
  subst e
  refine ⟨?_, ?_, ?_⟩
  · simp [joinChannel, update]
  · intro u hu h1
    have hu2 : u ∈ m.state.users.map (fun v =>
        if v.id = 1 then { v with channelId := c } else v) := by
      simpa [joinChannel, update] using hu
    obtain ⟨v, hv, rfl⟩ := List.mem_map.mp hu2
    by_cases hv1 : v.id = 1
    · simp [hv1]
    · simp only [if_neg hv1] at h1 ⊢
      exact absurd h1 hv1
  · simp [joinChannel, update_passive]

/-- Witness for C4: joining channel 2 on a fresh transport with one
subscribed listener. -/
theorem C4_joinChannel_total_atomic_witness :
    (joinChannel passiveEnv 2
        (subscribe passiveEnv 9 createMockTransport)).state.currentChannelId = some 2
    ∧ (joinChannel passiveEnv 2 (subscribe passiveEnv 9 createMockTransport)).log
      = (subscribe passiveEnv 9 createMockTransport).log
        ++ (subscribe passiveEnv 9 createMockTransport).listeners.map
            (fun l => (l, (joinChannel passiveEnv 2
              (subscribe passiveEnv 9 createMockTransport)).state)) :=
  have h := C4_joinChannel_total_atomic (subscribe passiveEnv 9 createMockTransport)
    (joinChannel passiveEnv 2 (subscribe passiveEnv 9 createMockTransport)) 2 rfl
  ⟨h.1, h.2.2⟩

/-! ### Trace lemmas for the unsubscribe guarantee -/

/-- No entry of a passive emission belongs to a listener outside the
registered set, and the registered set is unchanged, so a single command
never calls an unregistered listener nor registers it (unless the command is
`subscribe` of that very listener). -/
theorem runCmd_not_listening (l : Nat) (c : Cmd) (m : MockTransport)
    (hl : l ∉ m.listeners) (hc : c ≠ Cmd.subscribe l) :
    l ∉ (runCmd passiveEnv m c).listeners
    ∧ calls l (runCmd passiveEnv m c) = calls l m := by
  have hmap : ∀ s2 : TransportState,
      (m.listeners.map (fun x => (x, s2))).filter (fun e => e.1 = l) = [] := by
    intro s2
    refine List.filter_eq_nil_iff.mpr ?_
    intro e he
    obtain ⟨x, hx, rfl⟩ := List.mem_map.mp he
    simp only [decide_eq_true_eq]
    exact fun hxl => hl (hxl ▸ hx)
  have hupd : ∀ s2 : TransportState,
      l ∉ (update passiveEnv m s2).listeners
      ∧ calls l (update passiveEnv m s2) = calls l m := by
    intro s2
    rw [update_passive]
    refine ⟨hl, ?_⟩
    simp only [calls, List.filter_append, hmap, List.append_nil]
  cases c with
  | connect s =>
    by_cases hcs : m.state.connState = ConnState.connected
    · simp only [runCmd, connect, if_pos hcs]
      exact ⟨hl, trivial⟩
    · simp only [runCmd, connect, if_neg hcs]
      exact ⟨(hupd _).1, (hupd _).2⟩
  | disconnect =>
    exact ⟨(hupd _).1, (hupd _).2⟩
  | join c =>
    exact ⟨(hupd _).1, (hupd _).2⟩
  | setMute b =>
    exact ⟨(hupd _).1, (hupd _).2⟩
  | setDeafen b =>
    exact ⟨(hupd _).1, (hupd _).2⟩
  | fire t =>
    by_cases hft : m.connectTimer = some t
    · simp only [runCmd, fireConnectTimer, if_pos hft]
      exact ⟨(hupd _).1, (hupd _).2⟩
    · simp only [runCmd, fireConnectTimer, if_neg hft]
      exact ⟨hl, trivial⟩
  | subscribe l2 =>
    have hll : l ≠ l2 := by
      intro hh
      exact hc (by rw [hh])
    constructor
    · simp only [runCmd, subscribe, runBehavior, passiveEnv]
      by_cases hmem : l2 ∈ m.listeners
      · simp only [if_pos hmem]
        exact hl
      · simp only [if_neg hmem, List.mem_append, List.mem_singleton]
        rintro (h1 | h2)
        · exact hl h1
        · exact hll h2
    · simp only [runCmd, subscribe, calls, List.filter_append, List.length_append]
      have hone : [(l2, snapshot m)].filter (fun e => e.1 = l) = [] := by
        simp only [List.filter, decide_eq_true_eq]
        simp [hll.symm]
      rw [hone]
      simp
  | unsub l2 =>
    constructor
    · simp only [runCmd, unsubscribeListener]
      intro hmem
      exact hl (List.mem_of_mem_filter hmem)
    · rfl

/-- Over a whole trace that never re-subscribes `l`, an unregistered listener
stays unregistered and receives no invocation. -/
theorem runTrace_not_listening (l : Nat) :
    ∀ (cs : List Cmd) (m : MockTransport), l ∉ m.listeners →
      Cmd.subscribe l ∉ cs →
      l ∉ (runTrace passiveEnv cs m).listeners
      ∧ calls l (runTrace passiveEnv cs m) = calls l m
  | [], m, hl, _ => ⟨hl, rfl⟩
  | c :: cs, m, hl, hcs => by
    have hc : c ≠ Cmd.subscribe l := by
      intro hh
      exact hcs (hh ▸ List.mem_cons_self c cs)
    have hcs2 : Cmd.subscribe l ∉ cs := fun hh => hcs (List.mem_cons_of_mem c hh)
    have hstep := runCmd_not_listening l c m hl hc
    have hrest := runTrace_not_listening l cs (runCmd passiveEnv m c) hstep.1 hcs2
    refine ⟨?_, ?_⟩
    · simpa [runTrace] using hrest.1
    · calc calls l (runTrace passiveEnv (c :: cs) m)
          = calls l (runTrace passiveEnv cs (runCmd passiveEnv m c)) := rfl
        _ = calls l (runCmd passiveEnv m c) := hrest.2
        _ = calls l m := hstep.2

/-- C6: the subscribe/unsubscribe contract.  `subscribe(listener)` invokes the
listener exactly once, immediately, with a snapshot equal to `getState()`
taken at subscription time (the log grows by exactly that one entry); the
returned unsubscribe capability removes the listener so that any subsequent
trace of commands (that does not subscribe it again) delivers it zero further
invocations; and invoking the capability a second time is a no-op. -/
theorem C6_subscribe_contract (env : Env) (l : Nat) (m : MockTransport)
    (cs : List Cmd) (hcs : Cmd.subscribe l ∉ cs) :
    (subscribe env l m).log = m.log ++ [(l, getState m)]
    ∧ unsubscribeListener l (unsubscribeListener l m) = unsubscribeListener l m
    ∧ calls l (runTrace passiveEnv cs (unsubscribeListener l m))
      = calls l (unsubscribeListener l m) := by
  refine ⟨rfl, ?_, ?_⟩
  · simp only [unsubscribeListener, List.filter_filter]
    congr 1
    apply List.filter_congr
    intro x _
    simp [Bool.and_self]
  · have hl : l ∉ (unsubscribeListener l m).listeners := by
      simp [unsubscribeListener]
    exact (runTrace_not_listening l cs (unsubscribeListener l m) hl hcs).2

/-- Witness for C6: unsubscribing listener 9 on the fresh transport, then
running a mute command, delivers listener 9 nothing further. -/
theorem C6_subscribe_contract_witness :
    (subscribe passiveEnv 9 createMockTransport).log
      = createMockTransport.log ++ [(9, getState createMockTransport)]
    ∧ calls 9 (runTrace passiveEnv [Cmd.setMute true]
        (unsubscribeListener 9 (subscribe passiveEnv 9 createMockTransport)))
      = calls 9 (unsubscribeListener 9 (subscribe passiveEnv 9 createMockTransport)) :=
  have h := C6_subscribe_contract passiveEnv 9
    (subscribe passiveEnv 9 createMockTransport) [Cmd.setMute true] (by decide)
  have h0 := C6_subscribe_contract passiveEnv 9 createMockTransport [] (by decide)
  ⟨h0.1, h.2.2⟩

/-! ### The self-user mirror invariant along traces -/

/-- `mirrorsSelf` only depends on the `users` and `me` components. -/
theorem mirrorsSelf_congr {s t : TransportState} (hu : t.users = s.users)
    (hm : t.me = s.me) (h : mirrorsSelf s) : mirrorsSelf t := by
  intro u hmem h1
  rw [hm]
  exact h u (hu ▸ hmem) h1

/-- `updateMe` re-establishes the mirror invariant unconditionally: every
id-1 user entry of the new state carries exactly the new `me` flags. -/
theorem updateMe_mirrors (env : Env) (pm pd : Option Bool) (m : MockTransport) :
    mirrorsSelf (updateMe env pm pd m).state := by
  intro u hmem h1
  have hmem2 : u ∈ m.state.users.map (fun v =>
      if v.id = 1 then
        { v with muted := some (pm.getD m.state.me.muted),
                 deafened := some (pd.getD m.state.me.deafened) }
      else v) := by
    simpa [updateMe, update] using hmem
  obtain ⟨v, hv, rfl⟩ := List.mem_map.mp hmem2
  by_cases hv1 : v.id = 1
  · simp [updateMe, update, hv1]
  · simp only [if_neg hv1] at h1
    exact absurd h1 hv1

/-- Every command preserves the mirror invariant on the current state. -/
theorem runCmd_mirrors_state (c : Cmd) (m : MockTransport)
    (h : mirrorsSelf m.state) : mirrorsSelf (runCmd passiveEnv m c).state := by
  cases c with
  | connect s =>
    by_cases hcs : m.state.connState = ConnState.connected
    · simp only [runCmd, connect, if_pos hcs]
      exact h
    · simp only [runCmd, connect, if_neg hcs]
      exact mirrorsSelf_congr rfl rfl h
  | disconnect =>
    exact mirrorsSelf_congr rfl rfl h
  | join c =>
    intro u hmem h1
    have hmem2 : u ∈ m.state.users.map (fun v =>
        if v.id = 1 then { v with channelId := c } else v) := by
      simpa [runCmd, joinChannel, update] using hmem
    obtain ⟨v, hv, rfl⟩ := List.mem_map.mp hmem2
    by_cases hv1 : v.id = 1
    · have h2 := h v hv hv1
      simp only [runCmd, joinChannel, update, if_pos hv1]
      simpa [hv1] using h2
    · simp only [if_neg hv1] at h1
      exact absurd h1 hv1
  | setMute b =>
    exact updateMe_mirrors passiveEnv (some b) none m
  | setDeafen b =>
    exact updateMe_mirrors passiveEnv none (some b) m
  | fire t =>
    by_cases hft : m.connectTimer = some t
    · simp only [runCmd, fireConnectTimer, if_pos hft]
      exact mirrorsSelf_congr rfl rfl h
    · simp only [runCmd, fireConnectTimer, if_neg hft]
      exact h
  | subscribe l2 =>
    exact h
  | unsub l2 =>
    exact h

/-- Every command preserves the mirror invariant on every logged snapshot:
a new log entry is either the (old = new) current state (`subscribe`) or the
newly merged state of an emission. -/
theorem runCmd_mirrors_log (c : Cmd) (m : MockTransport)
    (h : mirrorsSelf m.state) (hlog : ∀ e ∈ m.log, mirrorsSelf e.2) :
    ∀ e ∈ (runCmd passiveEnv m c).log, mirrorsSelf e.2 := by
  have hnew : mirrorsSelf (runCmd passiveEnv m c).state := runCmd_mirrors_state c m h
  have hgen : ∀ s2 : TransportState, mirrorsSelf s2 →
      ∀ e ∈ (update passiveEnv m s2).log, mirrorsSelf e.2 := by
    intro s2 hs2 e he
    rw [update_passive] at he
    rcases List.mem_append.mp he with hold | hmapped
    · exact hlog e hold
    · obtain ⟨x, _, rfl⟩ := List.mem_map.mp hmapped
      exact hs2
  cases c with
  | connect s =>
    by_cases hcs : m.state.connState = ConnState.connected
    · simp only [runCmd, connect, if_pos hcs]
      exact hlog
    · simp only [runCmd, connect, if_neg hcs] at hnew ⊢
      exact hgen _ hnew
  | disconnect =>
    exact hgen _ hnew
  | join c =>
    exact hgen _ hnew
  | setMute b =>
    exact hgen _ hnew
  | setDeafen b =>
    exact hgen _ hnew
  | fire t =>
    by_cases hft : m.connectTimer = some t
    · simp only [runCmd, fireConnectTimer, if_pos hft] at hnew ⊢
      exact hgen _ hnew
    · simp only [runCmd, fireConnectTimer, if_neg hft]
      exact hlog
  | subscribe l2 =>
    intro e he
    rcases List.mem_append.mp he with hold | hone
    · exact hlog e hold
    · rcases List.mem_singleton.mp hone with rfl
      exact h
  | unsub l2 =>
    exact hlog

/-- The mirror invariant holds along any whole trace. -/
theorem runTrace_mirrors :
    ∀ (cs : List Cmd) (m : MockTransport),
      mirrorsSelf m.state → (∀ e ∈ m.log, mirrorsSelf e.2) →
      mirrorsSelf (runTrace passiveEnv cs m).state
      ∧ ∀ e ∈ (runTrace passiveEnv cs m).log, mirrorsSelf e.2
  | [], _, h, hlog => ⟨h, hlog⟩
  | c :: cs, m, h, hlog =>
    runTrace_mirrors cs (runCmd passiveEnv m c)
      (runCmd_mirrors_state c m h) (runCmd_mirrors_log c m h hlog)

/-- C5: self-user mirror invariant.  In every snapshot ever delivered to a
listener (including the immediate snapshot of a subscription) along any
command trace from the fresh transport, each user entry with id 1 (the seeded
self user) has its `muted` flag (absent read as `false`) equal to `me.muted`
and its `deafened` flag equal to `me.deafened`. -/
theorem C5_self_user_mirror (cs : List Cmd) :
    ∀ e ∈ (runTrace passiveEnv cs createMockTransport).log, mirrorsSelf e.2 :=
  (runTrace_mirrors cs createMockTransport (by decide) (by simp [createMockTransport])).2

/-- Witness for C5: the snapshot delivered at a subscription right after a
mute command satisfies the mirror invariant. -/
theorem C5_self_user_mirror_witness :
    ((5 : Nat), (runCmd passiveEnv createMockTransport (Cmd.setMute true)).state)
      ∈ (runTrace passiveEnv [Cmd.setMute true, Cmd.subscribe 5]
          createMockTransport).log
    ∧ mirrorsSelf (runCmd passiveEnv createMockTransport (Cmd.setMute true)).state :=
  have hmem : ((5 : Nat), (runCmd passiveEnv createMockTransport (Cmd.setMute true)).state)
      ∈ (runTrace passiveEnv [Cmd.setMute true, Cmd.subscribe 5]
          createMockTransport).log := by decide
  ⟨hmem, C5_self_user_mirror [Cmd.setMute true, Cmd.subscribe 5] _ hmem⟩

/-! ### Delivery during re-entrant unsubscription -/

/-- Environment in which the callback of listener `a` unsubscribes listener
`b` (calls the unsubscribe capability of `b` re-entrantly) and everyone else is a pure
observer. -/
def envUnsub (a b : Nat) : Env :=
  fun i => if i = a then Behavior.unsubOn b else Behavior.passive

/-- C7 counterexample: delivery does NOT iterate over a stable snapshot of
the listener set taken at emission time.  Concretely: listeners 1 and 2 are
both subscribed (the callback of listener 1 unsubscribes listener 2); during the
emission triggered by `setMute(true)`, listener 1 is invoked once more while
listener 2 — a member of the listener set at the moment of emission —
receives nothing from that pass, because `Set.forEach` consults the live set.
This refutes the claim that a listener unsubscribed during an in-flight
delivery pass is not excluded from that same pass. -/
theorem C7_stable_delivery_counterexample :
    (subscribe (envUnsub 1 2) 2 (subscribe (envUnsub 1 2) 1
        createMockTransport)).listeners = [1, 2]
    ∧ calls 1 (setMute (envUnsub 1 2) true
        (subscribe (envUnsub 1 2) 2 (subscribe (envUnsub 1 2) 1 createMockTransport)))
      = calls 1 (subscribe (envUnsub 1 2) 2 (subscribe (envUnsub 1 2) 1
          createMockTransport)) + 1
    ∧ calls 2 (setMute (envUnsub 1 2) true
        (subscribe (envUnsub 1 2) 2 (subscribe (envUnsub 1 2) 1 createMockTransport)))
      = calls 2 (subscribe (envUnsub 1 2) 2 (subscribe (envUnsub 1 2) 1
          createMockTransport)) := by
  refine ⟨by decide, by decide, by decide⟩

/-- C7 amended: when a snapshot is emitted, delivery iterates the listener
set in insertion order consulting the *live* set (JS `Set.forEach`), so a
listener whose callback runs earlier in the pass can unsubscribe a
later-positioned listener and thereby exclude it from that same in-flight
pass: with listeners `[a, b]` where the callback of `a` unsubscribes `b`, the
emission delivers the snapshot to `a` only and leaves `b` unsubscribed. -/
theorem C7_live_delivery_amended (a b : Nat) (m : MockTransport)
    (s2 : TransportState) (hab : a ≠ b) (hl : m.listeners = [a, b]) :
    (update (envUnsub a b) m s2).log = m.log ++ [(a, s2)]
    ∧ (update (envUnsub a b) m s2).listeners = [a] := by
  have hba : ¬ (b = a) := fun hh => hab hh.symm
  have hrun : runBehavior (envUnsub a b) a [a, b] = [a] := by
    simp [runBehavior, envUnsub, hab, hba]
  have hfd : forEachDeliver (envUnsub a b) s2 [a, b] [a, b] m.log
      = ([a], m.log ++ [(a, s2)]) := by
    have hmema : a ∈ [a, b] := List.mem_cons_self a [b]
    have hmemb : ¬ (b ∈ [a]) := by simp [hba]
    simp only [forEachDeliver, if_pos hmema, hrun, if_neg hmemb]
  constructor
  · show (forEachDeliver (envUnsub a b) s2 m.listeners m.listeners m.log).2
        = m.log ++ [(a, s2)]
    rw [hl, hfd]
  · show (forEachDeliver (envUnsub a b) s2 m.listeners m.listeners m.log).1 = [a]
    rw [hl, hfd]

/-- Witness for the amended C7 at the concrete two-listener transport. -/
theorem C7_live_delivery_amended_witness :
    (update (envUnsub 1 2)
        (subscribe (envUnsub 1 2) 2 (subscribe (envUnsub 1 2) 1 createMockTransport))
        initialState).log
      = (subscribe (envUnsub 1 2) 2 (subscribe (envUnsub 1 2) 1
          createMockTransport)).log ++ [(1, initialState)]
    ∧ (update (envUnsub 1 2)
        (subscribe (envUnsub 1 2) 2 (subscribe (envUnsub 1 2) 1 createMockTransport))
        initialState).listeners = [1] :=
  C7_live_delivery_amended 1 2
    (subscribe (envUnsub 1 2) 2 (subscribe (envUnsub 1 2) 1 createMockTransport))
    initialState (by decide) (by decide)

end Babble
